import Mathlib

/-!
# Verification of the edx-notes-api annotation service

A shallow embedding of the annotation ("note") storage and retrieval
service: the data model (`notesapi/v1/models.py`), the search view and its
query routing (`notesapi/v1/views.py`), the record-store filter pipeline,
the lifecycle operations (create / update / delete / retire), the
pagination envelope (`notesapi/v1/search_indexes/paginators.py`) and the
search-index highlight serializer
(`notesapi/v1/search_indexes/serializers/note.py`).

Python strings are modelled as `String`, Python dict payloads as records of
`Option` fields (`none` = key absent), the persisted store as a `List Note`,
and timestamps as `Nat`.  Fallible handlers return an explicit result type;
an uncaught Python exception is modelled as an `internalError` result.
-/

namespace EdxNotes

/-! ## String utilities

Case-insensitive substring matching, modelling Django's `__icontains`
lookup (`WHERE field LIKE %term%` under a case-insensitive collation).
Defined over `List Char` so that everything reduces by `decide`.
-/

/-- `listStartsWith pat l` is true iff `pat` is an initial segment of `l`. -/
def listStartsWith : List Char → List Char → Bool
  | [], _ => true
  | _ :: _, [] => false
  | a :: as, b :: bs => a == b && listStartsWith as bs

/-- `listHasSub pat l` is true iff `pat` occurs contiguously inside `l`. -/
def listHasSub (pat : List Char) : List Char → Bool
  | [] => listStartsWith pat []
  | l@(_ :: rest) => listStartsWith pat l || listHasSub pat rest

/-- Lower-cased character sequence of a string. -/
def lowerChars (s : String) : List Char := s.data.map Char.toLower

/-- Django `field__icontains=term`: case-insensitive containment of `term`
in `hay`. -/
def icontains (hay term : String) : Bool :=
  listHasSub (lowerChars term) (lowerChars hay)

/-! ## Request query parameters

A Django `QueryDict` is a multi-valued mapping; we model it as an ordered
list of key/value pairs.  `QueryDict.get` / `QueryDict.dict()` take the
*last* value of a repeated key; `getlist` returns all values in order;
`in` tests key presence regardless of value.
-/

/-- A request's query string: ordered key/value pairs (keys may repeat). -/
def QueryParams : Type := List (String × String)

/-- `key in query_params` (Django key-presence test). -/
def qpHas (qp : QueryParams) (key : String) : Bool :=
  (List.any qp fun p => p.1 == key)

/-- `query_params.getlist(key)`: every value bound to `key`, in order. -/
def qpGetList (qp : QueryParams) (key : String) : List String :=
  (List.filter (fun p => p.1 == key) qp).map Prod.snd

/-- `query_params.get(key)` / `query_params.dict()[key]`: the last value
bound to `key`, or `none` when the key is absent. -/
def qpGet (qp : QueryParams) (key : String) : Option String :=
  (qpGetList qp key).getLast?

/-! ## Data model (`notesapi/v1/models.py`)

`ranges` and `tags` are JSON values persisted in `JSONField` columns; we
model the `ranges` value as the list of its (opaque, serialized) position
descriptors and the `tags` column content as its serialized JSON text,
which is what the record-store `tags__icontains` lookup scans.
-/

/-- A persisted `Note` row. -/
structure Note where
  id : Nat
  user_id : String
  course_id : String
  usage_id : String
  quote : String
  text : String
  ranges : List String
  tags : String
  created : Nat
  updated : Nat
deriving DecidableEq, Repr

/-- `json.dumps` of a list of plain string labels:
`["a", "b"]` style serialization (Python's default `", "` separator). -/
def jsonDumpsList (labels : List String) : String :=
  "[" ++ String.intercalate ", " (labels.map fun l => "\"" ++ l ++ "\"") ++ "]"

/-! ## Create payload (`AnnotationListView.post` / `Note.create`)

A JSON request body is either a mapping or some other JSON value
(list, string, number ...).  For a mapping we record the note-schema keys
(`none` = key absent) plus whether an `"id"` key is present; for a
non-mapping we record its Python truthiness and whether `"id" in data`
holds (element / substring membership).
-/

/-- The note-schema keys of a mapping payload; `none` means the key is
absent from the request body. -/
structure NoteData where
  hasId : Bool
  user : Option String
  course_id : Option String
  usage_id : Option String
  quote : Option String
  text : Option String
  ranges : Option (List String)
  tags : Option (List String)
deriving DecidableEq, Repr

/-- A JSON request body. -/
inductive Payload where
  /-- A JSON object. -/
  | mapping (d : NoteData)
  /-- Any non-mapping JSON value, with its truthiness and the result of
  the Python membership test `"id" in data`. -/
  | nonMapping (truthy : Bool) (hasIdMember : Bool)
deriving DecidableEq, Repr

/-- Python truthiness of a mapping payload: a dict is falsy iff it has no
keys. -/
def NoteData.isEmptyDict (d : NoteData) : Bool :=
  !d.hasId && d.user.isNone && d.course_id.isNone && d.usage_id.isNone &&
  d.quote.isNone && d.text.isNone && d.ranges.isNone && d.tags.isNone

/-- `not data`: Python falsiness of the request body. -/
def Payload.isFalsy : Payload → Bool
  | .mapping d => d.isEmptyDict
  | .nonMapping truthy _ => !truthy

/-- `"id" in data`. -/
def Payload.hasId : Payload → Bool
  | .mapping d => d.hasId
  | .nonMapping _ hasIdMember => hasIdMember

/-! ## Model-level validation

`Note.create` (`models.py`) performs the explicit structural checks and
builds an unsaved instance; `Model.full_clean()` (standard Django
semantics, driven by the field declarations in `models.py`) then rejects
blank values on every editable field not declared `blank=True`:
`user_id`, `course_id`, `usage_id` and `quote` must be non-empty strings,
and the `ranges` and `tags` JSON values must be non-empty (`[]` is among a
`JSONField`'s empty values); it also runs each field's `MaxLengthValidator`,
so the `max_length=255` CharFields `user_id`, `course_id` and `usage_id`
must not exceed 255 characters; `text` is declared `blank=True` and may be
empty (`TextField`s carry no max length); `id`, `created`, `updated` are
excluded as pk / auto fields.
-/

/-- `Note.create(note_data)`: the structural checks of `models.py`
(`not isinstance(dict)` / empty dict / missing-or-empty `ranges` each
raise `ValidationError`, modelled as `none`), then construction of the
unsaved instance with `user` popped into `user_id`, absent optional keys
falling back to the field defaults, and `created = updated = now`
(set at save by `auto_now_add` / `auto_now`). -/
def noteCreate (newId now : Nat) (data : Payload) : Option Note :=
  match data with
  | .nonMapping _ _ => none
  | .mapping d =>
    if d.isEmptyDict then none
    else
      match d.ranges with
      | none => none
      | some [] => none
      | some rs =>
        some { id := newId
               user_id := d.user.getD ""
               course_id := d.course_id.getD ""
               usage_id := d.usage_id.getD ""
               quote := d.quote.getD ""
               text := d.text.getD ""
               ranges := rs
               tags := jsonDumpsList (d.tags.getD [])
               created := now
               updated := now }

/-- `note.full_clean()` on the freshly constructed instance at create
time: blank checks against the in-memory attribute values (which for
`tags` is the payload's JSON list, default `list`, i.e. `[]`), and the
`MaxLengthValidator` of the `max_length=255` CharFields `user_id`,
`course_id` and `usage_id`. -/
def fullCleanCreateOk (d : NoteData) : Bool :=
  !(d.user.getD "").isEmpty && decide ((d.user.getD "").length ≤ 255) &&
  !(d.course_id.getD "").isEmpty && decide ((d.course_id.getD "").length ≤ 255) &&
  !(d.usage_id.getD "").isEmpty && decide ((d.usage_id.getD "").length ≤ 255) &&
  !(d.quote.getD "").isEmpty &&
  !(d.tags.getD []).isEmpty

/-- `note.full_clean()` on an updated instance: the mutated `text` may be
blank (`blank=True`); the mutated `tags` attribute is the `json.dumps`
string, blank only when empty; all other attributes are the stored
values. -/
def fullCleanUpdateOk (n : Note) : Bool :=
  !n.user_id.isEmpty && !n.course_id.isEmpty && !n.usage_id.isEmpty &&
  !n.quote.isEmpty && !n.ranges.isEmpty && !n.tags.isEmpty

/-! ## Annotation lifecycle (`AnnotationListView.post`,
`AnnotationDetailView.put` / `delete`, `AnnotationRetireView.post`) -/

/-- Number of persisted notes of one `(user_id, course_id)` pair. -/
def countUserCourse (db : List Note) (u c : String) : Nat :=
  (List.filter (fun n => n.user_id == u && n.course_id == c) db).length

/-- Outcome of `AnnotationListView.post`. -/
inductive PostResult where
  /-- HTTP 201 with the serialized note. -/
  | created (note : Note)
  /-- Plain HTTP 400 (structural `ValidationError` or the falsy/`id`
  guard). -/
  | badRequest
  /-- HTTP 400 with the quota message; `max_num` is the configured
  maximum interpolated into the user-facing message. -/
  | quotaExceeded (max_num : Nat)
  /-- An exception the handler does not catch (HTTP 500). -/
  | internalError (exc : String)
deriving DecidableEq, Repr

/-- `AnnotationListView.post`: the falsy / `"id" in data` guard, then the
quota count (reading `data["user"]` and `data["course_id"]`, which raises
an uncaught `TypeError` on a non-mapping body and an uncaught `KeyError`
when either key is absent), then `Note.create`, `full_clean` and `save`.
Only `ValidationError` and `AnnotationsLimitReachedError` are caught.
Returns the response together with the resulting store. -/
def annotationListPost (db : List Note) (maxNotes : Nat) (newId now : Nat)
    (data : Payload) : PostResult × List Note :=
  if data.isFalsy || data.hasId then (.badRequest, db)
  else
    match data with
    | .nonMapping _ _ => (.internalError "TypeError", db)
    | .mapping d =>
      match d.user, d.course_id with
      | some u, some c =>
        if maxNotes ≤ countUserCourse db u c then (.quotaExceeded maxNotes, db)
        else
          match noteCreate newId now (.mapping d) with
          | none => (.badRequest, db)
          | some note =>
            if fullCleanCreateOk d then (.created note, db ++ [note])
            else (.badRequest, db)
      | _, _ => (.internalError "KeyError", db)

/-- The update payload keys read by `AnnotationDetailView.put`
(`none` = key absent, which raises `KeyError`). -/
structure UpdateData where
  text : Option String
  tags : Option (List String)
deriving DecidableEq, Repr

/-- Outcome of `AnnotationDetailView.put`. -/
inductive PutResult where
  /-- HTTP 200 with the serialized updated note. -/
  | ok (note : Note)
  /-- HTTP 404 (`Note.DoesNotExist`). -/
  | notFound
  /-- HTTP 400 (`KeyError`: `text` or `tags` absent). -/
  | badRequest
  /-- An exception the handler does not catch (HTTP 500). -/
  | internalError (exc : String)
deriving DecidableEq, Repr

/-- `AnnotationDetailView.put`: look up the note by id (`DoesNotExist` →
404), set `text` from `data["text"]` and `tags` from
`json.dumps(data["tags"])` (`KeyError` → 400), `full_clean` (its
`ValidationError` is *not* caught here), then `save` (refreshing
`updated` via `auto_now`). -/
def annotationDetailPut (db : List Note) (annotation_id : Nat) (now : Nat)
    (data : UpdateData) : PutResult × List Note :=
  match List.find? (fun n => n.id == annotation_id) db with
  | none => (.notFound, db)
  | some note =>
    match data.text with
    | none => (.badRequest, db)
    | some t =>
      match data.tags with
      | none => (.badRequest, db)
      | some tg =>
        let note' := { note with text := t, tags := jsonDumpsList tg, updated := now }
        if fullCleanUpdateOk note' then
          (.ok note', db.map fun n => if n.id == annotation_id then note' else n)
        else (.internalError "ValidationError", db)

/-- Outcome of `AnnotationRetireView.post` / `AnnotationDetailView.delete`. -/
inductive DeleteResult where
  /-- HTTP 204. -/
  | noContent
  /-- HTTP 400 (missing / falsy `user`). -/
  | badRequest
  /-- HTTP 404. -/
  | notFound
deriving DecidableEq, Repr

/-- `AnnotationRetireView.post`: `request.data.get("user")`; a missing or
falsy (empty) value is rejected with 400, otherwise every note whose
`user_id` matches is deleted and 204 returned. -/
def annotationRetirePost (db : List Note) (user : Option String) :
    DeleteResult × List Note :=
  if (user.getD "").isEmpty then (.badRequest, db)
  else (.noContent, List.filter (fun n => !(n.user_id == user.getD "")) db)

/-- `AnnotationDetailView.delete`: delete by id, 404 when absent. -/
def annotationDetailDelete (db : List Note) (annotation_id : Nat) :
    DeleteResult × List Note :=
  match List.find? (fun n => n.id == annotation_id) db with
  | none => (.notFound, db)
  | some _ => (.noContent, List.filter (fun n => !(n.id == annotation_id)) db)

/-! ## Query router (`AnnotationSearchView`) -/

/-- The two data sources a search request can be served from. -/
inductive DataSource where
  | recordStore
  | searchIndex
deriving DecidableEq, Repr

/-- `AnnotationSearchView.is_es_disabled`:
`settings.ES_DISABLED or "text" not in self.request.query_params`. -/
def is_es_disabled (esDisabledSetting : Bool) (qp : QueryParams) : Bool :=
  esDisabledSetting || !(qpHas qp "text")

/-- The data source answering a search request: the search index exactly
when `is_es_disabled` is false (`get_queryset`'s branch). -/
def selectedSource (esDisabledSetting : Bool) (qp : QueryParams) : DataSource :=
  if is_es_disabled esDisabledSetting qp then .recordStore else .searchIndex

/-- The serializer classes `AnnotationSearchView.get_serializer_class`
chooses between. -/
inductive SerializerChoice where
  | noteSerializer
  | noteDocumentSerializer
deriving DecidableEq, Repr

/-- `AnnotationSearchView.get_serializer_class`: `NoteSerializer` if
elasticsearch is disabled, else `NotesElasticSearchSerializer`. -/
def get_serializer_class (esDisabledSetting : Bool) (qp : QueryParams) :
    SerializerChoice :=
  if is_es_disabled esDisabledSetting qp then .noteSerializer
  else .noteDocumentSerializer

/-- The paginator instances `AnnotationSearchView.paginator` chooses
between. -/
inductive PaginatorChoice where
  | recordStorePaginator
  | searchIndexPaginator
deriving DecidableEq, Repr

/-- `AnnotationSearchView.paginator`: `self.pagination_class()` if
elasticsearch is disabled, else `ESNotesPagination()`. -/
def search_view_paginator (esDisabledSetting : Bool) (qp : QueryParams) :
    PaginatorChoice :=
  if is_es_disabled esDisabledSetting qp then .recordStorePaginator
  else .searchIndexPaginator

/-! ## Record-store filter pipeline
(`AnnotationSearchView.build_query_params_state` / `get_queryset`) -/

/-- The `self.query_params` record built by `build_query_params_state` on
the record-store path (when `is_es_disabled` holds, the `usage_id__in`
value is the plain list and the `user` parameter is mapped to the
`user_id` key).  Note that the `usage_id__in` key is set
*unconditionally*, even when no `usage_id` parameter is present. -/
structure DbQueryParams where
  usage_id_in : List String
  course_id : Option String
  user_id : Option String
deriving DecidableEq, Repr

/-- `build_query_params_state` on the record-store path. -/
def build_query_params_db (qp : QueryParams) : DbQueryParams :=
  { usage_id_in := qpGetList qp "usage_id"
    course_id := qpGet qp "course_id"
    user_id := qpGet qp "user" }

/-- `Note.objects.filter(**self.query_params)`: conjunction of the
`usage_id__in` membership filter (an empty list matches no row) and the
optional `course_id` / `user_id` equality filters. -/
def dbParamsFilter (p : DbQueryParams) (db : List Note) : List Note :=
  List.filter
    (fun n =>
      p.usage_id_in.contains n.usage_id &&
      (match p.course_id with | none => true | some c => n.course_id == c) &&
      (match p.user_id with | none => true | some u => n.user_id == u))
    db

/-- `.order_by("-updated")`: stable sort by `updated` descending
(insertion sort; an incoming element is placed after every element with a
strictly larger-or-equal `updated`). -/
def insertByUpdatedDesc (n : Note) : List Note → List Note
  | [] => [n]
  | m :: ms =>
    if n.updated ≤ m.updated then m :: insertByUpdatedDesc n ms
    else n :: m :: ms

/-- Sort a result list by `updated` descending. -/
def orderByUpdatedDesc : List Note → List Note
  | [] => []
  | n :: ns => insertByUpdatedDesc n (orderByUpdatedDesc ns)

/-- `AnnotationSearchView.get_queryset` on the record-store path
(`is_es_disabled` true): the exact-match stage, the default ordering, and
— when the `text` parameter is present and truthy (non-empty) — the
substring stage `Q(text__icontains=t) | Q(tags__icontains=t)`. -/
def get_queryset_db (db : List Note) (qp : QueryParams) : List Note :=
  let base := orderByUpdatedDesc (dbParamsFilter (build_query_params_db qp) db)
  match qpGet qp "text" with
  | some t => if t.isEmpty then base
              else List.filter (fun n => icontains n.text t || icontains n.tags t) base
  | none => base

/-! ## Pagination
(`notesapi/v1/search_indexes/paginators.py`; page arithmetic per the
standard Django/DRF `PageNumberPagination` semantics: `num_pages` is the
ceiling of `count / page_size` with an empty set still giving one page, a
page out of `1 ..= num_pages` is invalid (HTTP 404), and the `next` /
`previous` links are non-null exactly when the neighbouring page exists.) -/

/-- The canonical paged envelope returned by
`NotesPagination.get_paginated_response`: exactly the keys `count`,
`next`, `previous`, `current`, `num_pages`, `results`; the links are
modelled by the page number they point to (`none` = JSON null). -/
structure PageEnvelope (α : Type) where
  count : Nat
  next : Option Nat
  previous : Option Nat
  current : Nat
  num_pages : Nat
  results : List α
deriving DecidableEq, Repr

/-- `django.core.paginator.Paginator.num_pages`. -/
def numPagesOf (count pageSize : Nat) : Nat :=
  max 1 ((count + pageSize - 1) / pageSize)

/-- One page of results, or `none` for an invalid page number. -/
def pageSlice (items : List α) (page pageSize : Nat) : Option (List α) :=
  if page = 0 ∨ numPagesOf items.length pageSize < page then none
  else some ((items.drop ((page - 1) * pageSize)).take pageSize)

/-- `NotesPagination.get_paginated_response` for a whole result set:
paginate and wrap into the canonical envelope. -/
def paginatedResponse (items : List α) (page pageSize : Nat) :
    Option (PageEnvelope α) :=
  (pageSlice items page pageSize).map fun res =>
    { count := items.length
      next := if page < numPagesOf items.length pageSize then some (page + 1) else none
      previous := if 1 < page then some (page - 1) else none
      current := page
      num_pages := numPagesOf items.length pageSize
      results := res }

/-- `NotesPagination.page_size` (search-index paginator,
`search_indexes/paginators.py`): default page size 25. -/
def notesPaginationPageSize : Nat := 25

/-- Modelled from the spec: the record-store paginator class bound by
`DEFAULT_PAGINATION_CLASS` (its module is not part of the sources here —
only the search-index paginator is); per §4.3 it applies the same
canonical envelope with the same default page size 25. -/
def recordStorePaginationPageSize : Nat := 25

/-- The search-index paginator's response for a result set at the default
page size. -/
def esPaginatedResponse (items : List α) (page : Nat) : Option (PageEnvelope α) :=
  paginatedResponse items page notesPaginationPageSize

/-- The record-store paginator's response for a result set at the default
page size (envelope modelled from the spec, see
`recordStorePaginationPageSize`). -/
def dbPaginatedResponse (items : List α) (page : Nat) : Option (PageEnvelope α) :=
  paginatedResponse items page recordStorePaginationPageSize

/-! ## Search-index highlight stage
(`AnnotationSearchView.highlight_fields`, `filter_queryset` and
`search_indexes/serializers/note.py`) -/

/-- Highlight configuration for one field in
`AnnotationSearchView.highlight_fields`. -/
structure HighlightFieldConfig where
  enabled : Bool
  pre_tags : List String
  post_tags : List String
  number_of_fragments : Nat
deriving DecidableEq, Repr

/-- `highlight_fields["text"]["options"]` together with its `enabled`
flag. -/
def highlight_fields_text : HighlightFieldConfig :=
  { enabled := true, pre_tags := ["<em>"], post_tags := ["</em>"],
    number_of_fragments := 0 }

/-- `highlight_fields["tags"]["options"]` together with its `enabled`
flag. -/
def highlight_fields_tags : HighlightFieldConfig :=
  { enabled := true, pre_tags := ["<em>"], post_tags := ["</em>"],
    number_of_fragments := 0 }

/-- `AnnotationSearchView.filter_queryset` appends `HighlightBackend` to
the chain exactly when `self.request.query_params.get("highlight")` is
truthy. -/
def highlightBackendApplied (qp : QueryParams) : Bool :=
  !((qpGet qp "highlight").getD "").isEmpty

/-- The `meta.highlight` object of a search hit: per highlighted field,
the fragment list the engine produced (`none` = the field is not a key of
the highlight object; a present key always carries at least one
fragment). -/
structure HighlightMeta where
  text : Option (List String)
  tags : Option (List String)
deriving DecidableEq, Repr

/-- A search-index hit as seen by `NoteDocumentSerializer`: the stored
field values plus the optional `meta.highlight` object (`none` when the
highlight stage was not applied or produced nothing). -/
structure ESHit where
  text : String
  tags : List String
  highlight : Option HighlightMeta
deriving DecidableEq, Repr

/-- `NoteDocumentSerializer.get_text`: the first highlight fragment for
`text` when `meta.highlight` exists and has a `text` key, else the stored
`text`. -/
def serializerGetText (hit : ESHit) : String :=
  match hit.highlight with
  | some h =>
    match h.text with
    | some fragments => fragments.headD hit.text
    | none => hit.text
  | none => hit.text

/-- `NoteDocumentSerializer.get_tags`: the full highlight fragment list
for `tags` when `meta.highlight` exists and has a `tags` key, else
`list(note.tags) if note.tags else []` (which is the stored list in both
cases). -/
def serializerGetTags (hit : ESHit) : List String :=
  match hit.highlight with
  | some h =>
    match h.tags with
    | some fragments => fragments
    | none => if hit.tags.isEmpty then [] else hit.tags
  | none => if hit.tags.isEmpty then [] else hit.tags

/-! ## Concrete fixtures used to exercise the theorems -/

/-- A persisted sample note. -/
def sampleNote : Note :=
  { id := 1, user_id := "student-1", course_id := "course-A",
    usage_id := "block-1", quote := "quoted", text := "Hello World",
    ranges := ["r1"], tags := "[\"Math\"]", created := 0, updated := 5 }

/-- A note whose body text mentions the search term but whose tags do
not. -/
def noteTextOnly : Note :=
  { id := 2, user_id := "student-1", course_id := "course-A",
    usage_id := "block-2", quote := "q2", text := "Area of a Triangle",
    ranges := ["r2"], tags := "[\"geometry\"]", created := 0, updated := 7 }

/-- A note whose serialized tags mention the search term but whose body
text does not. -/
def noteTagOnly : Note :=
  { id := 3, user_id := "student-1", course_id := "course-A",
    usage_id := "block-3", quote := "q3", text := "plain words",
    ranges := ["r3"], tags := "[\"Triangle\"]", created := 0, updated := 9 }

/-- A note matching the search term in neither field. -/
def noteNoMatch : Note :=
  { id := 4, user_id := "student-1", course_id := "course-A",
    usage_id := "block-4", quote := "q4", text := "unrelated",
    ranges := ["r4"], tags := "[\"algebra\"]", created := 0, updated := 11 }

/-- A record-store search request: free-text term `triangle` over the
three usage ids of the fixture notes. -/
def fixtureSearchQp : QueryParams :=
  [("text", "triangle"), ("usage_id", "block-2"), ("usage_id", "block-3"),
   ("usage_id", "block-4")]

/-- A well-formed create payload for `sampleNote`'s `(user, course)`
pair. -/
def fixtureCreateData : NoteData :=
  { hasId := false, user := some "student-1", course_id := some "course-A",
    usage_id := some "block-9", quote := some "another quote",
    text := some "more thoughts", ranges := some ["r9"], tags := some ["t9"] }

/-- A search hit carrying a highlight fragment for `text` but none for
`tags`. -/
def fixtureHighlightedHit : ESHit :=
  { text := "Hello World", tags := ["Math"],
    highlight := some { text := some ["<em>Hello</em> World"], tags := none } }

/-- A create payload whose `ranges` key is absent. -/
def fixtureNoRangesData : NoteData :=
  { hasId := false, user := some "student-1", course_id := some "course-A",
    usage_id := some "block-9", quote := some "another quote",
    text := some "more thoughts", ranges := none, tags := some ["t9"] }

/-! ## Helper lemmas -/

theorem mem_insertByUpdatedDesc {n m : Note} {l : List Note} :
    m ∈ insertByUpdatedDesc n l ↔ m = n ∨ m ∈ l := by
  induction l with
  | nil => simp [insertByUpdatedDesc]
  | cons a as ih =>
    simp only [insertByUpdatedDesc]
    split
    · simp only [List.mem_cons, ih]
      tauto
    · simp only [List.mem_cons]

theorem mem_orderByUpdatedDesc {m : Note} {l : List Note} :
    m ∈ orderByUpdatedDesc l ↔ m ∈ l := by
  induction l with
  | nil => simp [orderByUpdatedDesc]
  | cons a as ih =>
    simp only [orderByUpdatedDesc, mem_insertByUpdatedDesc, ih, List.mem_cons]

theorem jsonDumpsList_isEmpty_false (l : List String) :
    (jsonDumpsList l).isEmpty = false := by
  rw [Bool.eq_false_iff]
  intro h
  have h2 : jsonDumpsList l = "" := (String.isEmpty_iff _).1 h
  have h3 : (jsonDumpsList l).data = [] := by rw [h2]
  rw [jsonDumpsList] at h3
  simp [String.data_append] at h3

/-! ## Claim theorems -/

/-- C1 counterexample: with the search backend enabled and a
present-but-empty `text` parameter, the code routes the request to the
Search Index Projection, while the claim mandates the Record Store for
every request without a *non-empty* `text` parameter. -/
theorem routing_empty_text_param_counterexample :
    selectedSource false ([("text", "")] : QueryParams) = DataSource.searchIndex
    ∧ (qpGet ([("text", "")] : QueryParams) "text").getD "" = "" := by
  decide

/-- C1 (amended): the Search Index Projection is selected iff the search
backend is enabled AND the request carries the `text` key (even with an
empty value); the serializer and the paginator follow the same decision. -/
theorem routing_source_serializer_paginator_bound
    (esDisabledSetting : Bool) (qp : QueryParams) :
    (selectedSource esDisabledSetting qp = DataSource.searchIndex ↔
      (esDisabledSetting = false ∧ qpHas qp "text" = true))
    ∧ (get_serializer_class esDisabledSetting qp = SerializerChoice.noteDocumentSerializer ↔
      selectedSource esDisabledSetting qp = DataSource.searchIndex)
    ∧ (search_view_paginator esDisabledSetting qp = PaginatorChoice.searchIndexPaginator ↔
      selectedSource esDisabledSetting qp = DataSource.searchIndex) := by
  cases esDisabledSetting <;> cases h : qpHas qp "text" <;>
    simp [selectedSource, is_es_disabled, get_serializer_class,
      search_view_paginator, h]

/-- C2: the `usage_id` stage is *not* a no-op when the parameter is
absent — `build_query_params_state` unconditionally installs
`usage_id__in`, so a record-store request without any `usage_id`
parameter filters with an empty membership list and returns no notes at
all, although the store contains a note and every other filter stage is
inactive; supplying the matching `usage_id` explicitly returns the
note. -/
theorem usage_id_stage_empties_record_store_results :
    get_queryset_db [sampleNote] ([] : QueryParams) = []
    ∧ (build_query_params_db ([] : QueryParams)).usage_id_in = []
    ∧ get_queryset_db [sampleNote] ([("usage_id", "block-1")] : QueryParams) =
        [sampleNote] := by
  decide

/-- C3: on the record-store path with a truthy `text` term, a note is in
the final result set iff it survives the exact-match parameter stage and
the term is a case-insensitive substring of its `text` OR of its
serialized `tags` (logical OR across the two fields). -/
theorem record_store_text_search_or_semantics
    (db : List Note) (qp : QueryParams) (t : String)
    (htext : qpGet qp "text" = some t) (hne : t.isEmpty = false) (n : Note) :
    n ∈ get_queryset_db db qp ↔
      (n ∈ dbParamsFilter (build_query_params_db qp) db ∧
        (icontains n.text t || icontains n.tags t) = true) := by
  simp [get_queryset_db, htext, hne, List.mem_filter, mem_orderByUpdatedDesc]

/-- C3 witness: over the fixture set — one note matching only by body
text, one only by tag, one by neither — the term `triangle` selects
exactly the first two. -/
theorem record_store_text_search_or_semantics_witness :
    (noteTextOnly ∈ get_queryset_db [noteTextOnly, noteTagOnly, noteNoMatch] fixtureSearchQp
      ↔ (noteTextOnly ∈ dbParamsFilter (build_query_params_db fixtureSearchQp)
            [noteTextOnly, noteTagOnly, noteNoMatch] ∧
          (icontains noteTextOnly.text "triangle" || icontains noteTextOnly.tags "triangle") = true))
    ∧ (noteTagOnly ∈ get_queryset_db [noteTextOnly, noteTagOnly, noteNoMatch] fixtureSearchQp
      ↔ (noteTagOnly ∈ dbParamsFilter (build_query_params_db fixtureSearchQp)
            [noteTextOnly, noteTagOnly, noteNoMatch] ∧
          (icontains noteTagOnly.text "triangle" || icontains noteTagOnly.tags "triangle") = true))
    ∧ (noteNoMatch ∈ get_queryset_db [noteTextOnly, noteTagOnly, noteNoMatch] fixtureSearchQp
      ↔ (noteNoMatch ∈ dbParamsFilter (build_query_params_db fixtureSearchQp)
            [noteTextOnly, noteTagOnly, noteNoMatch] ∧
          (icontains noteNoMatch.text "triangle" || icontains noteNoMatch.tags "triangle") = true)) :=
  ⟨record_store_text_search_or_semantics _ fixtureSearchQp "triangle"
      (by decide) (by decide) noteTextOnly,
   record_store_text_search_or_semantics _ fixtureSearchQp "triangle"
      (by decide) (by decide) noteTagOnly,
   record_store_text_search_or_semantics _ fixtureSearchQp "triangle"
      (by decide) (by decide) noteNoMatch⟩

/-- C4 counterexample: a non-empty non-mapping payload (e.g. the JSON
list `["x"]`) must, per the claim, fail with an HTTP 400 validation
error; the handler instead reads `data["user"]` before any structural
check and raises an uncaught `TypeError` (HTTP 500). -/
theorem post_nonmapping_payload_counterexample :
    annotationListPost [] 10 1 0 (Payload.nonMapping true false) =
      (PostResult.internalError "TypeError", [])
    ∧ PostResult.internalError "TypeError" ≠ PostResult.badRequest := by
  decide

/-- C4 (amended): create answers a plain HTTP 400 validation error — with
the store unchanged — iff the payload is falsy, or contains an `id` key,
or is a mapping carrying `user` and `course_id` (with the quota not yet
reached) whose `ranges` is missing or empty or which fails the model's
field validation (blank `user` / `course_id` / `usage_id` / `quote`,
missing/empty `tags`, or `user` / `course_id` / `usage_id` exceeding
their 255-character maximum); a non-empty non-mapping payload, or a
mapping lacking `user` or `course_id`, instead escapes the structural
checks and raises an uncaught exception. -/
theorem post_validation_characterization
    (db : List Note) (maxNotes newId now : Nat) (p : Payload) :
    ((annotationListPost db maxNotes newId now p).1 = PostResult.badRequest →
      (annotationListPost db maxNotes newId now p).2 = db)
    ∧ ((annotationListPost db maxNotes newId now p).1 = PostResult.badRequest ↔
      (p.isFalsy = true ∨ p.hasId = true ∨
        ∃ d u c, p = Payload.mapping d ∧ d.user = some u ∧ d.course_id = some c ∧
          countUserCourse db u c < maxNotes ∧
          (d.ranges = none ∨ d.ranges = some [] ∨ fullCleanCreateOk d = false))) := by
  cases p with
  | nonMapping truthy hasIdM =>
    cases truthy <;> cases hasIdM <;>
      simp [annotationListPost, Payload.isFalsy, Payload.hasId]
  | mapping d =>
    by_cases h1 : d.isEmptyDict = true
    · simp [annotationListPost, Payload.isFalsy, Payload.hasId, h1]
    · by_cases h2 : d.hasId = true
      · simp [annotationListPost, Payload.isFalsy, Payload.hasId, h1, h2]
      · cases hu : d.user with
        | none => simp [annotationListPost, Payload.isFalsy, Payload.hasId, h1, h2, hu]
        | some u =>
          cases hc : d.course_id with
          | none =>
            simp [annotationListPost, Payload.isFalsy, Payload.hasId, h1, h2, hu, hc]
          | some c =>
            by_cases hq : maxNotes ≤ countUserCourse db u c
            · have hnl : ¬ countUserCourse db u c < maxNotes := Nat.not_lt.2 hq
              simp [annotationListPost, Payload.isFalsy, Payload.hasId, h1, h2, hu,
                hc, hq, hnl]
            · have hlt : countUserCourse db u c < maxNotes := Nat.lt_of_not_le hq
              cases hr : d.ranges with
              | none =>
                simp [annotationListPost, Payload.isFalsy, Payload.hasId, noteCreate,
                  h1, h2, hu, hc, hq, hr, hlt]
              | some rs =>
                cases rs with
                | nil =>
                  simp [annotationListPost, Payload.isFalsy, Payload.hasId, noteCreate,
                    h1, h2, hu, hc, hq, hr, hlt]
                | cons r rest =>
                  by_cases hfc : fullCleanCreateOk d = true <;>
                    simp [annotationListPost, Payload.isFalsy, Payload.hasId,
                      noteCreate, h1, h2, hu, hc, hq, hr, hfc, hlt]

/-- C4 witness: a mapping payload with `user`/`course_id` but no `ranges`
is rejected with a plain 400 and nothing is persisted. -/
theorem post_validation_characterization_witness :
    (annotationListPost [] 10 1 0 (Payload.mapping fixtureNoRangesData)).1 =
      PostResult.badRequest
    ∧ (annotationListPost [] 10 1 0 (Payload.mapping fixtureNoRangesData)).2 = [] := by
  have h := post_validation_characterization [] 10 1 0 (Payload.mapping fixtureNoRangesData)
  have hbr : (annotationListPost [] 10 1 0 (Payload.mapping fixtureNoRangesData)).1 =
      PostResult.badRequest :=
    h.2.mpr (Or.inr (Or.inr ⟨fixtureNoRangesData, "student-1", "course-A", rfl,
      by decide, by decide, by decide, Or.inl (by decide)⟩))
  exact ⟨hbr, h.1 hbr⟩

/-- C5: when the `(user, course)` pair already holds exactly the
configured maximum number of notes, a further create fails with the
quota-exceeded bad request whose message names the configured maximum,
and the store is returned unchanged (so exactly the previous count of
notes remains persisted). -/
theorem post_quota_exceeded (db : List Note) (maxNotes newId now : Nat)
    (d : NoteData) (u c : String)
    (hu : d.user = some u) (hc : d.course_id = some c)
    (hfalsy : Payload.isFalsy (Payload.mapping d) = false) (hid : d.hasId = false)
    (hcount : countUserCourse db u c = maxNotes) :
    annotationListPost db maxNotes newId now (Payload.mapping d) =
      (PostResult.quotaExceeded maxNotes, db) := by
  simp only [Payload.isFalsy] at hfalsy
  simp [annotationListPost, Payload.isFalsy, Payload.hasId, hfalsy, hid, hu, hc,
    hcount]

/-- C5 witness: with a maximum of 1 and one persisted note for
`(student-1, course-A)`, a further create for that pair fails with the
quota message naming 1 and leaves exactly the one note persisted. -/
theorem post_quota_exceeded_witness :
    annotationListPost [sampleNote] 1 2 7 (Payload.mapping fixtureCreateData) =
      (PostResult.quotaExceeded 1, [sampleNote]) :=
  post_quota_exceeded [sampleNote] 1 2 7 fixtureCreateData "student-1" "course-A"
    (by decide) (by decide) (by decide) (by decide) (by decide)

/-- C6: updating a validly persisted note with a payload carrying both
`text` and `tags` succeeds and replaces the stored row by one whose
`text`, `tags` (serialized) and `updated` are the new values and whose
`id`, `user_id`, `course_id`, `usage_id`, `quote`, `created` and `ranges`
are the old ones, unchanged. -/
theorem put_frame_condition (db : List Note) (annotation_id now : Nat)
    (n : Note) (t : String) (tg : List String)
    (hfind : List.find? (fun m => m.id == annotation_id) db = some n)
    (hvalid : fullCleanUpdateOk n = true) :
    annotationDetailPut db annotation_id now { text := some t, tags := some tg } =
      (PutResult.ok { n with text := t, tags := jsonDumpsList tg, updated := now },
       db.map fun m => if m.id == annotation_id
         then { n with text := t, tags := jsonDumpsList tg, updated := now } else m)
    ∧ ({ n with text := t, tags := jsonDumpsList tg, updated := now }).id = n.id
    ∧ ({ n with text := t, tags := jsonDumpsList tg, updated := now }).user_id = n.user_id
    ∧ ({ n with text := t, tags := jsonDumpsList tg, updated := now }).course_id = n.course_id
    ∧ ({ n with text := t, tags := jsonDumpsList tg, updated := now }).usage_id = n.usage_id
    ∧ ({ n with text := t, tags := jsonDumpsList tg, updated := now }).quote = n.quote
    ∧ ({ n with text := t, tags := jsonDumpsList tg, updated := now }).created = n.created
    ∧ ({ n with text := t, tags := jsonDumpsList tg, updated := now }).ranges = n.ranges
    ∧ ({ n with text := t, tags := jsonDumpsList tg, updated := now }).text = t
    ∧ ({ n with text := t, tags := jsonDumpsList tg, updated := now }).tags = jsonDumpsList tg
    ∧ ({ n with text := t, tags := jsonDumpsList tg, updated := now }).updated = now := by
  have hvalid' : fullCleanUpdateOk
      { n with text := t, tags := jsonDumpsList tg, updated := now } = true := by
    simp only [fullCleanUpdateOk] at hvalid ⊢
    simp only [Bool.and_eq_true] at hvalid ⊢
    exact ⟨⟨⟨⟨⟨hvalid.1.1.1.1.1, hvalid.1.1.1.1.2⟩, hvalid.1.1.1.2⟩, hvalid.1.1.2⟩,
      hvalid.1.2⟩, by simp [jsonDumpsList_isEmpty_false]⟩
  refine ⟨?_, rfl, rfl, rfl, rfl, rfl, rfl, rfl, rfl, rfl, rfl⟩
  simp [annotationDetailPut, hfind, hvalid']

/-- C6 witness: updating the sample note replaces exactly `text`, `tags`
and `updated`. -/
theorem put_frame_condition_witness :
    annotationDetailPut [sampleNote] 1 9 { text := some "new thoughts", tags := some ["algebra"] } =
      (PutResult.ok
        { sampleNote with text := "new thoughts", tags := jsonDumpsList ["algebra"], updated := 9 },
       [sampleNote].map fun m => if m.id == 1
         then { sampleNote with text := "new thoughts", tags := jsonDumpsList ["algebra"], updated := 9 }
         else m) :=
  (put_frame_condition [sampleNote] 1 9 sampleNote "new thoughts" ["algebra"]
    (by decide) (by decide)).1

/-- C7: an update by id answers NotFound exactly when the id resolves to
no stored note; when the id does resolve, it answers BadRequest exactly
when `text` or `tags` is absent from the payload; and in either failure
case the persisted store is unchanged. -/
theorem put_error_characterization (db : List Note) (annotation_id now : Nat)
    (data : UpdateData) :
    ((annotationDetailPut db annotation_id now data).1 = PutResult.notFound ↔
      List.find? (fun m => m.id == annotation_id) db = none)
    ∧ (∀ n, List.find? (fun m => m.id == annotation_id) db = some n →
      ((annotationDetailPut db annotation_id now data).1 = PutResult.badRequest ↔
        (data.text = none ∨ data.tags = none)))
    ∧ (((annotationDetailPut db annotation_id now data).1 = PutResult.notFound ∨
        (annotationDetailPut db annotation_id now data).1 = PutResult.badRequest) →
      (annotationDetailPut db annotation_id now data).2 = db) := by
  cases hfind : List.find? (fun m => m.id == annotation_id) db with
  | none => simp [annotationDetailPut, hfind]
  | some n =>
    cases ht : data.text with
    | none => simp [annotationDetailPut, hfind, ht]
    | some t =>
      cases htg : data.tags with
      | none => simp [annotationDetailPut, hfind, ht, htg]
      | some tg =>
        by_cases hv : fullCleanUpdateOk
            { n with text := t, tags := jsonDumpsList tg, updated := now } = true <;>
          simp [annotationDetailPut, hfind, ht, htg, hv]

/-- C7 witness: on an empty store every update is NotFound with the store
unchanged, and on the sample store a payload missing `tags` is
BadRequest with the store unchanged. -/
theorem put_error_characterization_witness :
    (annotationDetailPut [] 1 0 { text := none, tags := none }).1 = PutResult.notFound
    ∧ (annotationDetailPut [sampleNote] 1 0 { text := some "x", tags := none }).1 =
        PutResult.badRequest
    ∧ (annotationDetailPut [sampleNote] 1 0 { text := some "x", tags := none }).2 =
        [sampleNote] := by
  have h1 := put_error_characterization [] 1 0 { text := none, tags := none }
  have h2 := put_error_characterization [sampleNote] 1 0 { text := some "x", tags := none }
  have hbr : (annotationDetailPut [sampleNote] 1 0 { text := some "x", tags := none }).1 =
      PutResult.badRequest :=
    (h2.2.1 sampleNote (by decide)).mpr (Or.inr rfl)
  exact ⟨h1.1.mpr (by decide), hbr, h2.2.2 (Or.inr hbr)⟩

/-- C8: retirement by a (non-empty) `user_id` succeeds with 204, the
resulting store holds exactly the notes of every other user, a user with
zero notes leaves the store unchanged (still a success), and running the
wipe twice yields the same store as running it once. -/
theorem retire_wipes_exactly_user (db : List Note) (u : String)
    (hu : u.isEmpty = false) :
    (annotationRetirePost db (some u)).1 = DeleteResult.noContent
    ∧ (∀ n, n ∈ (annotationRetirePost db (some u)).2 ↔ (n ∈ db ∧ n.user_id ≠ u))
    ∧ ((∀ n ∈ db, n.user_id ≠ u) → (annotationRetirePost db (some u)).2 = db)
    ∧ annotationRetirePost (annotationRetirePost db (some u)).2 (some u) =
        (DeleteResult.noContent, (annotationRetirePost db (some u)).2) := by
  refine ⟨by simp [annotationRetirePost, hu], ?_, ?_, ?_⟩
  · intro n
    simp [annotationRetirePost, hu, List.mem_filter]
  · intro hnone
    simp only [annotationRetirePost, hu, Option.getD_some, Bool.false_eq_true, if_false]
    exact List.filter_eq_self.mpr fun n hn => by simpa using hnone n hn
  · simp [annotationRetirePost, hu, List.filter_filter, Bool.and_self]

/-- C8 witness: retiring `student-1` on a one-note store of that user
succeeds and empties it, and retiring again succeeds idempotently. -/
theorem retire_wipes_exactly_user_witness :
    (annotationRetirePost [sampleNote] (some "student-1")).1 = DeleteResult.noContent
    ∧ annotationRetirePost (annotationRetirePost [sampleNote] (some "student-1")).2
        (some "student-1") =
        (DeleteResult.noContent, (annotationRetirePost [sampleNote] (some "student-1")).2) :=
  ⟨(retire_wipes_exactly_user [sampleNote] "student-1" (by decide)).1,
   (retire_wipes_exactly_user [sampleNote] "student-1" (by decide)).2.2.2⟩

/-- C9: both paginators use default page size 25 and wrap results into
the envelope of exactly `count`, `next`, `previous`, `current`,
`num_pages`, `results`; for any 60 matching records, page 1 is the first
25 results with a non-null `next` and `current = 1`, and page 3 is the
last 10 results with `next` null. -/
theorem pagination_envelope_sixty {α : Type} (items : List α)
    (h : items.length = 60) :
    notesPaginationPageSize = 25
    ∧ recordStorePaginationPageSize = 25
    ∧ esPaginatedResponse items 1 = some
        { count := 60, next := some 2, previous := none, current := 1,
          num_pages := 3, results := items.take 25 }
    ∧ (items.take 25).length = 25
    ∧ esPaginatedResponse items 3 = some
        { count := 60, next := none, previous := some 2, current := 3,
          num_pages := 3, results := (items.drop 50).take 25 }
    ∧ ((items.drop 50).take 25).length = 10
    ∧ dbPaginatedResponse items 1 = esPaginatedResponse items 1
    ∧ dbPaginatedResponse items 3 = esPaginatedResponse items 3 := by
  refine ⟨rfl, rfl, ?_, ?_, ?_, ?_, rfl, rfl⟩
  · simp [esPaginatedResponse, paginatedResponse, pageSlice, numPagesOf, h,
      notesPaginationPageSize]
  · simp [List.length_take, h]
  · simp [esPaginatedResponse, paginatedResponse, pageSlice, numPagesOf, h,
      notesPaginationPageSize]
  · simp [List.length_take, List.length_drop, h]

/-- C9 witness: the two envelopes at 60 concrete records. -/
theorem pagination_envelope_sixty_witness :
    esPaginatedResponse (List.range 60) 1 = some
      { count := 60, next := some 2, previous := none, current := 1,
        num_pages := 3, results := (List.range 60).take 25 }
    ∧ esPaginatedResponse (List.range 60) 3 = some
      { count := 60, next := none, previous := some 2, current := 3,
        num_pages := 3, results := ((List.range 60).drop 50).take 25 } :=
  ⟨(pagination_envelope_sixty (List.range 60) (by decide)).2.2.1,
   (pagination_envelope_sixty (List.range 60) (by decide)).2.2.2.2.1⟩

/-- C10: for each of `text` and `tags`, the serialized value of a
search-index hit is the highlighted fragment when the highlight object
exists and carries that field, and the untouched stored value otherwise
(no highlight produced for the field, or no highlight object at all);
the view's highlight configuration wraps matches in the default
`<em>`/`</em>` markers, and the highlight backend is only applied when
the request carries a truthy `highlight` flag. -/
theorem highlight_serialization (hit : ESHit) :
    highlight_fields_text.pre_tags = ["<em>"]
    ∧ highlight_fields_text.post_tags = ["</em>"]
    ∧ highlight_fields_tags.pre_tags = ["<em>"]
    ∧ highlight_fields_tags.post_tags = ["</em>"]
    ∧ (∀ h f fs, hit.highlight = some h → h.text = some (f :: fs) →
        serializerGetText hit = f)
    ∧ (∀ h, hit.highlight = some h → h.text = none → serializerGetText hit = hit.text)
    ∧ (hit.highlight = none →
        serializerGetText hit = hit.text ∧ serializerGetTags hit = hit.tags)
    ∧ (∀ h fs, hit.highlight = some h → h.tags = some fs → serializerGetTags hit = fs)
    ∧ (∀ h, hit.highlight = some h → h.tags = none → serializerGetTags hit = hit.tags)
    ∧ highlightBackendApplied ([] : QueryParams) = false
    ∧ highlightBackendApplied ([("highlight", "true")] : QueryParams) = true := by
  refine ⟨rfl, rfl, rfl, rfl, ?_, ?_, ?_, ?_, ?_, by decide, by decide⟩
  · intro h f fs hh ht
    simp [serializerGetText, hh, ht]
  · intro h hh ht
    simp [serializerGetText, hh, ht]
  · intro hh
    constructor
    · simp [serializerGetText, hh]
    · cases htags : hit.tags <;> simp [serializerGetTags, hh, htags]
  · intro h fs hh ht
    simp [serializerGetTags, hh, ht]
  · intro h hh ht
    cases htags : hit.tags <;> simp [serializerGetTags, hh, ht, htags]

/-- C10 witness: a hit with a `text` highlight fragment and no `tags`
highlight serializes the fragment for `text` and the stored list for
`tags`. -/
theorem highlight_serialization_witness :
    serializerGetText fixtureHighlightedHit = "<em>Hello</em> World"
    ∧ serializerGetTags fixtureHighlightedHit = ["Math"] :=
  ⟨(highlight_serialization fixtureHighlightedHit).2.2.2.2.1
      { text := some ["<em>Hello</em> World"], tags := none }
      "<em>Hello</em> World" [] rfl rfl,
   (highlight_serialization fixtureHighlightedHit).2.2.2.2.2.2.2.2.1
      { text := some ["<em>Hello</em> World"], tags := none } rfl rfl⟩

end EdxNotes
